import Mathlib

/-!
Verification of the Proxmox QM action module of blockhost-provisioner
(`root-agent-actions/qm.py`) against its natural-language specification.

The module is embedded shallowly: Python values arriving through the JSON
transport become the inductive `Value`; a handler is a pure function from a
configuration, a process-execution oracle (standing for `_common.run`) and a
parameter dictionary to a result together with the list of processes it
spawned.  Exceptions (KeyError from `params['vmid']`, validation errors
raised by `validate_vmid`) are modelled with `Except`.
-/

namespace Qm

/-- Python values as they arrive over the JSON transport: strings, integers,
lists, string-keyed dictionaries, and None. -/
inductive Value : Type where
  | vStr (s : String)
  | vInt (n : Int)
  | vList (xs : List Value)
  | vDict (kvs : List (String × Value))
  | vNone

/-- Exceptions a handler can raise before reaching `run`: `KeyError` from a
dict subscript, the validation error raised by `validate_vmid`, and the
`TypeError` the `in` operator raises on an unhashable left operand. -/
inductive PyError : Type where
  | keyError (k : String)
  | validationError (msg : String)
  | typeError (msg : String)
deriving DecidableEq, Repr

/-- The two result-dict shapes every handler in `qm.py` returns:
`{'ok': True, 'output': out}` and `{'ok': False, 'error': msg}`. -/
inductive QmResult : Type where
  | ok (output : String)
  | err (error : String)
deriving DecidableEq, Repr

deriving instance DecidableEq for Except

/-- Outcome of running one handler: the returned result (or propagated
exception) together with the trace of `run` invocations it made, each an
argv with its timeout.  "No process is spawned" is `spawned = []`. -/
structure HandlerRun : Type where
  result : Except PyError QmResult
  spawned : List (List String × Nat)
deriving DecidableEq, Repr

/-- Environment of a handler call: the administrative VMID range consulted by
`validate_vmid` (configuration, per the spec not hard-coded in this layer)
and the filesystem predicate behind `os.path.isfile`. -/
structure Config : Type where
  vmidLo : Int
  vmidHi : Int
  isfile : String → Bool

/-- The process executor `_common.run`: argv and timeout in, a triple
`(returncode, stdout, stderr)` out. -/
def Oracle : Type := List String → Nat → Int × String × String

/-- Parameter dictionaries `params` as string-keyed association lists (Python
dicts preserve insertion order, which the association list mirrors). -/
def Params : Type := List (String × Value)

/-- First-match lookup in a string-keyed dictionary. -/
def dictLookup (d : List (String × Value)) (k : String) : Option Value :=
  match d with
  | [] => none
  | (k', v) :: rest => if k' = k then some v else dictLookup rest k

/-- Python `d[k]`: the value, or a raised `KeyError`. -/
def pyGetItem (d : Params) (k : String) : Except PyError Value :=
  match dictLookup d k with
  | some v => Except.ok v
  | none => Except.error (PyError.keyError k)

/-- Python `d.get(k, default)`. -/
def pyGet (d : Params) (k : String) (default : Value) : Value :=
  match dictLookup d k with
  | some v => v
  | none => default

mutual

/-- Python `str()` of a value, as used by the handlers' `str(...)` coercions
and f-string interpolations. -/
def pyStr : Value → String
  | Value.vStr s => s
  | Value.vInt n => toString n
  | Value.vNone => "None"
  | Value.vList xs => "[" ++ pyReprJoin xs ++ "]"
  | Value.vDict kvs => "\x7b" ++ pyDictJoin kvs ++ "\x7d"

/-- Python `repr()` of a value (container elements render with `repr`). -/
def pyRepr : Value → String
  | Value.vStr s => "'" ++ s ++ "'"
  | Value.vInt n => toString n
  | Value.vNone => "None"
  | Value.vList xs => "[" ++ pyReprJoin xs ++ "]"
  | Value.vDict kvs => "\x7b" ++ pyDictJoin kvs ++ "\x7d"

/-- Comma-joined `repr`s of a list's elements. -/
def pyReprJoin : List Value → String
  | [] => ""
  | [x] => pyRepr x
  | x :: y :: rest => pyRepr x ++ ", " ++ pyReprJoin (y :: rest)

/-- Comma-joined `'key': repr(value)` renderings of a dict's items. -/
def pyDictJoin : List (String × Value) → String
  | [] => ""
  | [(k, v)] => "'" ++ k ++ "': " ++ pyRepr v
  | (k, v) :: y :: rest => "'" ++ k ++ "': " ++ pyRepr v ++ ", " ++ pyDictJoin (y :: rest)

end

/-- Python truthiness of `a or b` on strings: `a` if non-empty, else `b`
(the `err or out` idiom closing every handler). -/
def pyOr (a b : String) : String :=
  if a = "" then b else a

/-- Character class `[a-zA-Z0-9]` of the regexes. -/
def isAsciiAlnum (c : Char) : Bool :=
  ('a' ≤ c && c ≤ 'z') || ('A' ≤ c && c ≤ 'Z') || ('0' ≤ c && c ≤ '9')

/-- Character class `[0-9]`. -/
def isAsciiDigit (c : Char) : Bool :=
  '0' ≤ c && c ≤ '9'

/-- Character class `[a-z_]` (first char of USERNAME_RE). -/
def isUserFirst (c : Char) : Bool :=
  ('a' ≤ c && c ≤ 'z') || c = '_'

/-- Character class `[a-z0-9_-]` (subsequent chars of USERNAME_RE). -/
def isUserRest (c : Char) : Bool :=
  ('a' ≤ c && c ≤ 'z') || ('0' ≤ c && c ≤ '9') || c = '_' || c = '-'

/-- Character class `[a-zA-Z0-9_-]` of the storage-pool-name regex. -/
def isStorageChar (c : Char) : Bool :=
  isAsciiAlnum c || c = '_' || c = '-'

/-- Consume an expected literal sequence off the front of the input, returning
the remainder, or `none` when the input does not start with it. -/
def dropLit : List Char → List Char → Option (List Char)
  | [], cs => some cs
  | _ :: _, [] => none
  | p :: ps, c :: cs => if c = p then dropLit ps cs else none

/-- Body of `GECOS_RE` (`wallet=[a-zA-Z0-9]{1,128}(,nft=[0-9]{1,10})?`),
matched against the whole character list.  The bounded greedy repetitions
reduce to run-length checks because neither class can consume the character
that follows it (`,` is not alphanumeric, and after the digits only the end
may follow). -/
def gecosCore (cs : List Char) : Bool :=
  match dropLit ("wallet=".data) cs with
  | none => false
  | some r =>
    let w := r.takeWhile isAsciiAlnum
    let rest := r.dropWhile isAsciiAlnum
    if w.length < 1 || 128 < w.length then false
    else
      match rest with
      | [] => true
      | _ :: _ =>
        match dropLit (",nft=".data) rest with
        | none => false
        | some r2 =>
          let d := r2.takeWhile isAsciiDigit
          let rest2 := r2.dropWhile isAsciiDigit
          decide (1 ≤ d.length) && decide (d.length ≤ 10) && rest2.isEmpty

/-- Body of `USERNAME_RE` (`[a-z_][a-z0-9_-]{0,31}`), matched against the
whole character list. -/
def usernameCore : List Char → Bool
  | [] => false
  | c :: cs => isUserFirst c && decide (cs.length ≤ 31) && cs.all isUserRest

/-- Python `s.startswith(pre)`: the expected literal consumes off the front
of `s`. -/
def pyStartsWith (s pre : String) : Bool :=
  (dropLit pre.data s.data).isSome

/-- Truthiness of Python `re.match` for a `^...$`-anchored pattern: the body
must span the whole string, or — because `$` also matches just before a
newline that ends the string — the whole string minus one trailing
newline. -/
def reMatchAnchored (core : List Char → Bool) (s : String) : Bool :=
  core s.data ||
    (match s.data.getLast? with
     | some c => c = '\n' && core s.data.dropLast
     | none => false)

/-- Truthiness of `GECOS_RE.match(s)` for
`GECOS_RE = re.compile(r'^wallet=[a-zA-Z0-9]{1,128}(,nft=[0-9]{1,10})?$')`. -/
def GECOS_RE_match (s : String) : Bool :=
  reMatchAnchored gecosCore s

/-- Truthiness of `USERNAME_RE.match(s)` for
`USERNAME_RE = re.compile(r'^[a-z_][a-z0-9_-]{0,31}$')`. -/
def USERNAME_RE_match (s : String) : Bool :=
  reMatchAnchored usernameCore s

/-- Modelled from the spec: `STORAGE_RE` lives in the root agent's `_common`
module, which is not part of this repository's sources.  The spec (§4.1)
gives the storage-pool-name rule as the anchored regex `^[a-zA-Z0-9_-]+$`
with no whitespace allowed, i.e. one or more storage characters. -/
def STORAGE_RE_match (s : String) : Bool :=
  !s.data.isEmpty && s.data.all isStorageChar

/-- Base-10 integer reading of a raw transport value, for `validate_vmid`:
an integer is itself; a string must be an optional sign followed by one or
more digits (Python `int(str)`); anything else is not an integer. -/
def vmidParse (v : Value) : Option Int :=
  match v with
  | Value.vInt n => some n
  | Value.vStr s =>
    let cs := match s.data with
      | '-' :: rest => some (true, rest)
      | '+' :: rest => some (false, rest)
      | rest => some (false, rest)
    match cs with
    | some (neg, ds) =>
      if ds.isEmpty || !ds.all isAsciiDigit then none
      else
        let n : Int := Int.ofNat (ds.foldl (fun acc c => acc * 10 + (c.toNat - 48)) 0)
        some (if neg then -n else n)
    | none => none
  | _ => none

/-- Modelled from the spec: `validate_vmid` lives in the root agent's
`_common` module, which is not part of this repository's sources.  Per the
spec (§4.1) the VM identifier "must parse as a base-10 integer; must fall
within a configured inclusive range"; on failure the validator does not
return normally (the handlers use its return value directly), modelled as a
raised validation error. -/
def validate_vmid (cfg : Config) (v : Value) : Except PyError Int :=
  match vmidParse v with
  | some n =>
    if cfg.vmidLo ≤ n && n ≤ cfg.vmidHi then Except.ok n
    else Except.error (PyError.validationError ("vmid out of range: " ++ toString n))
  | none => Except.error (PyError.validationError ("vmid not an integer: " ++ pyStr v))

/-- Allowlist `QM_CREATE_ALLOWED_ARGS` (a frozenset; membership only). -/
def QM_CREATE_ALLOWED_ARGS : List String :=
  ["--scsi0", "--boot", "--ide2", "--agent", "--serial0", "--vga",
   "--net0", "--memory", "--cores", "--name", "--ostype", "--scsihw",
   "--sockets", "--cpu", "--numa", "--machine", "--bios"]

/-- Allowlist `QM_SET_ALLOWED_KEYS` (a frozenset; membership only). -/
def QM_SET_ALLOWED_KEYS : List String :=
  ["scsi0", "boot", "ide2", "agent", "serial0", "vga",
   "net0", "memory", "cores", "name", "ostype", "scsihw"]

/-- Membership test `flag in QM_CREATE_ALLOWED_ARGS` on a raw value: a
string is looked up in the frozenset; other hashable values (integers,
None) are simply not members of a frozenset of strings; an unhashable
operand (a list or a dict) makes the `in` operator raise `TypeError`,
which `handle_qm_create` does not catch. -/
def createFlagAllowed : Value → Except PyError Bool
  | Value.vStr s => Except.ok (QM_CREATE_ALLOWED_ARGS.contains s)
  | Value.vInt _ => Except.ok false
  | Value.vNone => Except.ok false
  | Value.vList _ => Except.error (PyError.typeError "unhashable type: 'list'")
  | Value.vDict _ => Except.error (PyError.typeError "unhashable type: 'dict'")

/-- The handler `_handle_qm_simple(params, subcommand, extra_args=(), timeout=120)`:
validate the VMID, run `['qm', subcommand, str(vmid)] + extra_args`, and map
the exit status (`err or out` on failure, stdout on success). -/
def _handle_qm_simple (cfg : Config) (oracle : Oracle) (params : Params)
    (subcommand : String) (extra_args : List String) (timeout : Nat) : HandlerRun :=
  match pyGetItem params "vmid" with
  | Except.error e => ⟨Except.error e, []⟩
  | Except.ok v =>
    match validate_vmid cfg v with
    | Except.error e => ⟨Except.error e, []⟩
    | Except.ok vmid =>
      let cmd := ["qm", subcommand, toString vmid] ++ extra_args
      let r := oracle cmd timeout
      if r.1 ≠ 0 then ⟨Except.ok (QmResult.err (pyOr r.2.2 r.2.1)), [(cmd, timeout)]⟩
      else ⟨Except.ok (QmResult.ok r.2.1), [(cmd, timeout)]⟩

/-- Outcome of the `for item in args` scan of `handle_qm_create`: the
completed command, an early `{'ok': False, 'error': ...}` return, or a
raised exception (the `TypeError` of an unhashable membership operand). -/
inductive CreateScan : Type where
  | done (cmd : List String)
  | reject (msg : String)
  | raised (e : PyError)

/-- The `for item in args` loop of `handle_qm_create`: return early on a
non-2-list item, raise if the membership test raises (unhashable flag),
return early on a flag outside the allowlist, otherwise extend the command
with the flag and `str(value)`; first failure wins. -/
def qmCreateLoop : List Value → List String → CreateScan
  | [], cmd => CreateScan.done cmd
  | item :: rest, cmd =>
    match item with
    | Value.vList [flag, value] =>
      match createFlagAllowed flag with
      | Except.error e => CreateScan.raised e
      | Except.ok true => qmCreateLoop rest (cmd ++ [pyStr flag, pyStr value])
      | Except.ok false => CreateScan.reject ("Disallowed qm create arg: " ++ pyStr flag)
    | _ => CreateScan.reject ("Each arg must be [flag, value]: " ++ pyStr item)

/-- The handler `handle_qm_create(params)`: validate the VMID, require `args`
to be a list of `[flag, value]` pairs with every flag in
`QM_CREATE_ALLOWED_ARGS`, then run `['qm', 'create', str(vmid)]` extended
with the pairs, with a 120-second timeout. -/
def handle_qm_create (cfg : Config) (oracle : Oracle) (params : Params) : HandlerRun :=
  match pyGetItem params "vmid" with
  | Except.error e => ⟨Except.error e, []⟩
  | Except.ok v =>
    match validate_vmid cfg v with
    | Except.error e => ⟨Except.error e, []⟩
    | Except.ok vmid =>
      match pyGet params "args" (Value.vList []) with
      | Value.vList items =>
        match qmCreateLoop items ["qm", "create", toString vmid] with
        | CreateScan.raised e => ⟨Except.error e, []⟩
        | CreateScan.reject msg => ⟨Except.ok (QmResult.err msg), []⟩
        | CreateScan.done cmd =>
          let r := oracle cmd 120
          if r.1 ≠ 0 then ⟨Except.ok (QmResult.err (pyOr r.2.2 r.2.1)), [(cmd, 120)]⟩
          else ⟨Except.ok (QmResult.ok r.2.1), [(cmd, 120)]⟩
      | _ => ⟨Except.ok (QmResult.err "args must be a list"), []⟩

/-- The handler `handle_qm_importdisk(params)`: validate the VMID, require a
non-empty string `image_path` under `/var/lib/blockhost/` or `/tmp/` naming
an existing file, require a storage name matching `STORAGE_RE`, then run
`['qm', 'importdisk', str(vmid), image_path, storage]` with a 600-second
timeout. -/
def handle_qm_importdisk (cfg : Config) (oracle : Oracle) (params : Params) : HandlerRun :=
  match pyGetItem params "vmid" with
  | Except.error e => ⟨Except.error e, []⟩
  | Except.ok v =>
    match validate_vmid cfg v with
    | Except.error e => ⟨Except.error e, []⟩
    | Except.ok vmid =>
      let image_path := pyGet params "image_path" (Value.vStr "")
      let storage := pyGet params "storage" (Value.vStr "")
      match image_path with
      | Value.vStr ip =>
        if ip = "" then ⟨Except.ok (QmResult.err "image_path is required"), []⟩
        else if !(pyStartsWith ip "/var/lib/blockhost/" || pyStartsWith ip "/tmp/") then
          ⟨Except.ok (QmResult.err "image_path must be under /var/lib/blockhost/ or /tmp/"), []⟩
        else if !cfg.isfile ip then
          ⟨Except.ok (QmResult.err ("Image not found: " ++ ip)), []⟩
        else
          match storage with
          | Value.vStr st =>
            if !STORAGE_RE_match st then
              ⟨Except.ok (QmResult.err ("Invalid storage name: " ++ st)), []⟩
            else
              let cmd := ["qm", "importdisk", toString vmid, ip, st]
              let r := oracle cmd 600
              if r.1 ≠ 0 then ⟨Except.ok (QmResult.err (pyOr r.2.2 r.2.1)), [(cmd, 600)]⟩
              else ⟨Except.ok (QmResult.ok r.2.1), [(cmd, 600)]⟩
          | other => ⟨Except.ok (QmResult.err ("Invalid storage name: " ++ pyStr other)), []⟩
      | _ => ⟨Except.ok (QmResult.err "image_path is required"), []⟩

/-- The `for key, value in config.items()` loop of `handle_qm_set`: reject a
key outside the allowlist, otherwise extend the command with `--key` and
`str(value)`; first failure wins. -/
def qmSetLoop : List (String × Value) → List String → Except String (List String)
  | [], cmd => Except.ok cmd
  | (key, value) :: rest, cmd =>
    if QM_SET_ALLOWED_KEYS.contains key then
      qmSetLoop rest (cmd ++ ["--" ++ key, pyStr value])
    else Except.error ("Disallowed qm set key: " ++ key)

/-- The handler `handle_qm_set(params)`: validate the VMID, require `config`
to be a non-empty dict with every key in `QM_SET_ALLOWED_KEYS`, then run
`['qm', 'set', str(vmid)]` extended with `--key value` pairs, with a
120-second timeout. -/
def handle_qm_set (cfg : Config) (oracle : Oracle) (params : Params) : HandlerRun :=
  match pyGetItem params "vmid" with
  | Except.error e => ⟨Except.error e, []⟩
  | Except.ok v =>
    match validate_vmid cfg v with
    | Except.error e => ⟨Except.error e, []⟩
    | Except.ok vmid =>
      match pyGet params "config" (Value.vDict []) with
      | Value.vDict [] => ⟨Except.ok (QmResult.err "config must be a non-empty dict"), []⟩
      | Value.vDict (kv :: kvs) =>
        match qmSetLoop (kv :: kvs) ["qm", "set", toString vmid] with
        | Except.error msg => ⟨Except.ok (QmResult.err msg), []⟩
        | Except.ok cmd =>
          let r := oracle cmd 120
          if r.1 ≠ 0 then ⟨Except.ok (QmResult.err (pyOr r.2.2 r.2.1)), [(cmd, 120)]⟩
          else ⟨Except.ok (QmResult.ok r.2.1), [(cmd, 120)]⟩
      | _ => ⟨Except.ok (QmResult.err "config must be a non-empty dict"), []⟩

/-- The handler `handle_qm_update_gecos(params)`: validate the VMID, require
`username` matching `USERNAME_RE` and `gecos` matching `GECOS_RE`, then run
`['qm', 'guest', 'exec', str(vmid), '--', 'usermod', '-c', gecos, username]`
with a 30-second timeout. -/
def handle_qm_update_gecos (cfg : Config) (oracle : Oracle) (params : Params) : HandlerRun :=
  match pyGetItem params "vmid" with
  | Except.error e => ⟨Except.error e, []⟩
  | Except.ok v =>
    match validate_vmid cfg v with
    | Except.error e => ⟨Except.error e, []⟩
    | Except.ok vmid =>
      match pyGet params "username" (Value.vStr "") with
      | Value.vStr username =>
        if !USERNAME_RE_match username then
          ⟨Except.ok (QmResult.err ("Invalid username: " ++ username)), []⟩
        else
          match pyGet params "gecos" (Value.vStr "") with
          | Value.vStr gecos =>
            if !GECOS_RE_match gecos then
              ⟨Except.ok (QmResult.err ("Invalid gecos: " ++ gecos)), []⟩
            else
              let cmd := ["qm", "guest", "exec", toString vmid, "--",
                          "usermod", "-c", gecos, username]
              let r := oracle cmd 30
              if r.1 ≠ 0 then ⟨Except.ok (QmResult.err (pyOr r.2.2 r.2.1)), [(cmd, 30)]⟩
              else ⟨Except.ok (QmResult.ok r.2.1), [(cmd, 30)]⟩
          | otherG => ⟨Except.ok (QmResult.err ("Invalid gecos: " ++ pyStr otherG)), []⟩
      | otherU => ⟨Except.ok (QmResult.err ("Invalid username: " ++ pyStr otherU)), []⟩

/-- The `ACTIONS` registry at the bottom of `qm.py`, with the lambdas'
default arguments (`extra_args=()`, `timeout=120`) spelled out. -/
def ACTIONS : List (String × (Config → Oracle → Params → HandlerRun)) :=
  [("qm-start", fun cfg o p => _handle_qm_simple cfg o p "start" [] 120),
   ("qm-stop", fun cfg o p => _handle_qm_simple cfg o p "stop" [] 120),
   ("qm-shutdown", fun cfg o p => _handle_qm_simple cfg o p "shutdown" [] 300),
   ("qm-destroy", fun cfg o p => _handle_qm_simple cfg o p "destroy" ["--purge"] 120),
   ("qm-create", handle_qm_create),
   ("qm-importdisk", handle_qm_importdisk),
   ("qm-set", handle_qm_set),
   ("qm-template", fun cfg o p => _handle_qm_simple cfg o p "template" [] 120),
   ("qm-update-gecos", handle_qm_update_gecos)]

/-- Registry lookup by action name (first match). -/
def lookupAction (name : String) : Option (Config → Oracle → Params → HandlerRun) :=
  (ACTIONS.find? (fun entry => entry.1 = name)).map (fun entry => entry.2)

/-- Rendering of a propagated handler exception as the dispatch loop's error
taxonomy (spec §4.5 step 2 and §7; an unexpected exception is still an
explicit failure, since errors are never silently swallowed). -/
def pyErrMsg : PyError → String
  | PyError.keyError k => "MissingParameter: " ++ k
  | PyError.validationError m => "InvalidParameter: " ++ m
  | PyError.typeError m => "TypeError: " ++ m

/-- Modelled from the spec: the root agent daemon that loads this action
module and dispatches requests to it is not part of this repository's
sources.  Per the spec (§4.5, §7) dispatch looks the action name up in the
registry (absent names fail with `UnknownAction`), invokes the handler, and
turns a missing required parameter into a `MissingParameter` failure and a
validation failure into an `InvalidParameter` failure, so that every
dispatch returns exactly one `ok`/`error` response. -/
def dispatch (cfg : Config) (oracle : Oracle) (action : String) (params : Params) :
    QmResult × List (List String × Nat) :=
  match lookupAction action with
  | none => (QmResult.err ("UnknownAction: " ++ action), [])
  | some h =>
    match h cfg oracle params with
    | ⟨Except.ok r, sp⟩ => (r, sp)
    | ⟨Except.error e, sp⟩ => (QmResult.err (pyErrMsg e), sp)

/-! Concrete fixtures used by closed statements and witnesses: an
administrative VMID range of 100–999, a filesystem on which every path
exists, and an executor that succeeds with stdout `"OUT"`. -/

/-- Test configuration: VMID range 100–999, every path an existing file. -/
def testCfg : Config := ⟨100, 999, fun _ => true⟩

/-- Test executor: every invocation exits 0 with stdout `"OUT"`. -/
def testOracle : Oracle := fun _ _ => (0, "OUT", "")

/-- Minimal parameters carrying only a valid VMID. -/
def params150 : Params := [("vmid", Value.vInt 150)]

/-- Parameters for a well-formed disk import. -/
def paramsImport : Params :=
  [("vmid", Value.vInt 150), ("image_path", Value.vStr "/tmp/img.raw"),
   ("storage", Value.vStr "local")]

/-- Unfolding of `_handle_qm_simple` once the VMID is present and valid. -/
theorem _handle_qm_simple_valid (cfg : Config) (oracle : Oracle) (params : Params)
    (sub : String) (extra : List String) (t : Nat) (v : Value) (n : Int)
    (h1 : dictLookup params "vmid" = some v) (h2 : validate_vmid cfg v = Except.ok n) :
    _handle_qm_simple cfg oracle params sub extra t =
      ⟨Except.ok
        (if (oracle (["qm", sub, toString n] ++ extra) t).1 ≠ 0 then
          QmResult.err (pyOr (oracle (["qm", sub, toString n] ++ extra) t).2.2
            (oracle (["qm", sub, toString n] ++ extra) t).2.1)
        else QmResult.ok (oracle (["qm", sub, toString n] ++ extra) t).2.1),
       [(["qm", sub, toString n] ++ extra, t)]⟩ := by
  simp only [_handle_qm_simple, pyGetItem, h1, h2]
  split <;> rfl

/-- C9: for every valid VMID, the `qm-destroy` action builds exactly the
argument vector `['qm', 'destroy', str(vmid), '--purge']` (the purge flag
and nothing else after the fixed subcommand and identifier) and passes it to
`run` with its 120-second timeout. -/
theorem qm_destroy_argv (cfg : Config) (oracle : Oracle) (params : Params)
    (v : Value) (n : Int)
    (h1 : dictLookup params "vmid" = some v) (h2 : validate_vmid cfg v = Except.ok n) :
    (dispatch cfg oracle "qm-destroy" params).2 =
      [(["qm", "destroy", toString n, "--purge"], 120)] := by
  have hl : lookupAction "qm-destroy" =
      some (fun cfg o p => _handle_qm_simple cfg o p "destroy" ["--purge"] 120) := rfl
  simp only [dispatch, hl]
  rw [_handle_qm_simple_valid cfg oracle params "destroy" ["--purge"] 120 v n h1 h2]
  rfl

/-- Witness for C9 at `vmid = 150` in range 100–999. -/
theorem qm_destroy_argv_witness :
    (dispatch testCfg testOracle "qm-destroy" params150).2 =
      [(["qm", "destroy", "150", "--purge"], 120)] :=
  qm_destroy_argv testCfg testOracle params150 (Value.vInt 150) 150 rfl rfl

/-- C8 counterexample: `qm-destroy` runs with the same 120-second timeout as
`qm-start` (the default of `_handle_qm_simple`), so the claim that the
destroy timeout is strictly greater than the start/stop timeout fails. -/
theorem timeout_category_counterexample :
    (dispatch testCfg testOracle "qm-destroy" params150).2 =
      [(["qm", "destroy", "150", "--purge"], 120)] ∧
    (dispatch testCfg testOracle "qm-start" params150).2 =
      [(["qm", "start", "150"], 120)] ∧
    ¬((120 : Nat) > 120) :=
  ⟨rfl, rfl, by decide⟩

/-- C8 amended: `qm-start`, `qm-stop` and `qm-destroy` all run with the
default 120-second timeout; `qm-shutdown` (300 s) and `qm-importdisk`
(600 s) run with multi-minute timeouts strictly greater than the start/stop
timeout; `qm-destroy` does not. -/
theorem timeouts_amended :
    (dispatch testCfg testOracle "qm-start" params150).2 =
      [(["qm", "start", "150"], 120)] ∧
    (dispatch testCfg testOracle "qm-stop" params150).2 =
      [(["qm", "stop", "150"], 120)] ∧
    (dispatch testCfg testOracle "qm-shutdown" params150).2 =
      [(["qm", "shutdown", "150"], 300)] ∧
    (dispatch testCfg testOracle "qm-destroy" params150).2 =
      [(["qm", "destroy", "150", "--purge"], 120)] ∧
    (dispatch testCfg testOracle "qm-importdisk" paramsImport).2 =
      [(["qm", "importdisk", "150", "/tmp/img.raw", "local"], 600)] ∧
    (300 : Nat) > 120 ∧ (600 : Nat) > 120 :=
  ⟨rfl, rfl, rfl, rfl, rfl, by decide, by decide⟩

/-- Dispatch of an action whose handler returned a result: the result is the
response and the spawn trace passes through. -/
theorem dispatch_of_ok (cfg : Config) (oracle : Oracle) (params : Params)
    (a : String) (f : Config → Oracle → Params → HandlerRun) (r : QmResult)
    (sp : List (List String × Nat)) (hl : lookupAction a = some f)
    (hr : f cfg oracle params = ⟨Except.ok r, sp⟩) :
    dispatch cfg oracle a params = (r, sp) := by
  simp only [dispatch, hl, hr]

/-- Dispatch of an action whose handler raised: the exception is rendered by
the error taxonomy and the spawn trace passes through. -/
theorem dispatch_of_error (cfg : Config) (oracle : Oracle) (params : Params)
    (a : String) (f : Config → Oracle → Params → HandlerRun) (e : PyError)
    (sp : List (List String × Nat)) (hl : lookupAction a = some f)
    (hr : f cfg oracle params = ⟨Except.error e, sp⟩) :
    dispatch cfg oracle a params = (QmResult.err (pyErrMsg e), sp) := by
  simp only [dispatch, hl, hr]

/-- Without a `vmid` key, `_handle_qm_simple` raises `KeyError` at
`params['vmid']` and spawns nothing. -/
theorem simple_missing_vmid (cfg : Config) (oracle : Oracle) (params : Params)
    (sub : String) (extra : List String) (t : Nat)
    (hmiss : dictLookup params "vmid" = none) :
    _handle_qm_simple cfg oracle params sub extra t =
      ⟨Except.error (PyError.keyError "vmid"), []⟩ := by
  simp [_handle_qm_simple, pyGetItem, hmiss]

/-- Without a `vmid` key, `handle_qm_create` raises `KeyError` and spawns
nothing. -/
theorem create_missing_vmid (cfg : Config) (oracle : Oracle) (params : Params)
    (hmiss : dictLookup params "vmid" = none) :
    handle_qm_create cfg oracle params = ⟨Except.error (PyError.keyError "vmid"), []⟩ := by
  simp [handle_qm_create, pyGetItem, hmiss]

/-- Without a `vmid` key, `handle_qm_importdisk` raises `KeyError` and spawns
nothing. -/
theorem importdisk_missing_vmid (cfg : Config) (oracle : Oracle) (params : Params)
    (hmiss : dictLookup params "vmid" = none) :
    handle_qm_importdisk cfg oracle params = ⟨Except.error (PyError.keyError "vmid"), []⟩ := by
  simp [handle_qm_importdisk, pyGetItem, hmiss]

/-- Without a `vmid` key, `handle_qm_set` raises `KeyError` and spawns
nothing. -/
theorem set_missing_vmid (cfg : Config) (oracle : Oracle) (params : Params)
    (hmiss : dictLookup params "vmid" = none) :
    handle_qm_set cfg oracle params = ⟨Except.error (PyError.keyError "vmid"), []⟩ := by
  simp [handle_qm_set, pyGetItem, hmiss]

/-- Without a `vmid` key, `handle_qm_update_gecos` raises `KeyError` and
spawns nothing. -/
theorem gecos_missing_vmid (cfg : Config) (oracle : Oracle) (params : Params)
    (hmiss : dictLookup params "vmid" = none) :
    handle_qm_update_gecos cfg oracle params = ⟨Except.error (PyError.keyError "vmid"), []⟩ := by
  simp [handle_qm_update_gecos, pyGetItem, hmiss]

/-- C5: for every action in the registry, a request whose params lack the
required `vmid` fails with a `MissingParameter` error and still yields
exactly one response, with `ok: false` and nothing spawned (dispatch is a
total function: every call returns exactly one response). -/
theorem missing_vmid_missing_parameter (cfg : Config) (oracle : Oracle) (params : Params)
    (entry : String × (Config → Oracle → Params → HandlerRun))
    (hmem : entry ∈ ACTIONS) (hmiss : dictLookup params "vmid" = none) :
    dispatch cfg oracle entry.1 params = (QmResult.err "MissingParameter: vmid", []) := by
  fin_cases hmem
  · exact dispatch_of_error cfg oracle params "qm-start" _ _ _ rfl
      (simple_missing_vmid cfg oracle params "start" [] 120 hmiss)
  · exact dispatch_of_error cfg oracle params "qm-stop" _ _ _ rfl
      (simple_missing_vmid cfg oracle params "stop" [] 120 hmiss)
  · exact dispatch_of_error cfg oracle params "qm-shutdown" _ _ _ rfl
      (simple_missing_vmid cfg oracle params "shutdown" [] 300 hmiss)
  · exact dispatch_of_error cfg oracle params "qm-destroy" _ _ _ rfl
      (simple_missing_vmid cfg oracle params "destroy" ["--purge"] 120 hmiss)
  · exact dispatch_of_error cfg oracle params "qm-create" _ _ _ rfl
      (create_missing_vmid cfg oracle params hmiss)
  · exact dispatch_of_error cfg oracle params "qm-importdisk" _ _ _ rfl
      (importdisk_missing_vmid cfg oracle params hmiss)
  · exact dispatch_of_error cfg oracle params "qm-set" _ _ _ rfl
      (set_missing_vmid cfg oracle params hmiss)
  · exact dispatch_of_error cfg oracle params "qm-template" _ _ _ rfl
      (simple_missing_vmid cfg oracle params "template" [] 120 hmiss)
  · exact dispatch_of_error cfg oracle params "qm-update-gecos" _ _ _ rfl
      (gecos_missing_vmid cfg oracle params hmiss)

/-- Witness for C5: `qm-create` dispatched with empty params. -/
theorem missing_vmid_missing_parameter_witness :
    dispatch testCfg testOracle "qm-create" [] = (QmResult.err "MissingParameter: vmid", []) :=
  missing_vmid_missing_parameter testCfg testOracle [] ("qm-create", handle_qm_create)
    (by unfold ACTIONS; simp) rfl

/-- When `validate_vmid` rejects, `_handle_qm_simple` propagates the error
and spawns nothing. -/
theorem simple_vmid_rejected (cfg : Config) (oracle : Oracle) (params : Params)
    (sub : String) (extra : List String) (t : Nat) (v : Value) (e : PyError)
    (h1 : dictLookup params "vmid" = some v)
    (h2 : validate_vmid cfg v = Except.error e) :
    _handle_qm_simple cfg oracle params sub extra t = ⟨Except.error e, []⟩ := by
  simp [_handle_qm_simple, pyGetItem, h1, h2]

/-- When `validate_vmid` rejects, `handle_qm_create` propagates the error and
spawns nothing. -/
theorem create_vmid_rejected (cfg : Config) (oracle : Oracle) (params : Params)
    (v : Value) (e : PyError)
    (h1 : dictLookup params "vmid" = some v)
    (h2 : validate_vmid cfg v = Except.error e) :
    handle_qm_create cfg oracle params = ⟨Except.error e, []⟩ := by
  simp [handle_qm_create, pyGetItem, h1, h2]

/-- When `validate_vmid` rejects, `handle_qm_importdisk` propagates the error
and spawns nothing. -/
theorem importdisk_vmid_rejected (cfg : Config) (oracle : Oracle) (params : Params)
    (v : Value) (e : PyError)
    (h1 : dictLookup params "vmid" = some v)
    (h2 : validate_vmid cfg v = Except.error e) :
    handle_qm_importdisk cfg oracle params = ⟨Except.error e, []⟩ := by
  simp [handle_qm_importdisk, pyGetItem, h1, h2]

/-- When `validate_vmid` rejects, `handle_qm_set` propagates the error and
spawns nothing. -/
theorem set_vmid_rejected (cfg : Config) (oracle : Oracle) (params : Params)
    (v : Value) (e : PyError)
    (h1 : dictLookup params "vmid" = some v)
    (h2 : validate_vmid cfg v = Except.error e) :
    handle_qm_set cfg oracle params = ⟨Except.error e, []⟩ := by
  simp [handle_qm_set, pyGetItem, h1, h2]

/-- When `validate_vmid` rejects, `handle_qm_update_gecos` propagates the
error and spawns nothing. -/
theorem gecos_vmid_rejected (cfg : Config) (oracle : Oracle) (params : Params)
    (v : Value) (e : PyError)
    (h1 : dictLookup params "vmid" = some v)
    (h2 : validate_vmid cfg v = Except.error e) :
    handle_qm_update_gecos cfg oracle params = ⟨Except.error e, []⟩ := by
  simp [handle_qm_update_gecos, pyGetItem, h1, h2]

/-- C2: every action in the registry feeds its `vmid` parameter through
`validate_vmid` before building any command; when validation rejects the
value (every non-integer and every integer outside the configured range,
by definition of `validate_vmid`), the handler raises and spawns no
process. -/
theorem vmid_validation_gates_all_actions (cfg : Config) (oracle : Oracle) (params : Params)
    (entry : String × (Config → Oracle → Params → HandlerRun))
    (hmem : entry ∈ ACTIONS) (v : Value) (e : PyError)
    (h1 : dictLookup params "vmid" = some v)
    (h2 : validate_vmid cfg v = Except.error e) :
    (entry.2 cfg oracle params).spawned = [] ∧
    (entry.2 cfg oracle params).result = Except.error e := by
  fin_cases hmem
  · rw [show (("qm-start", fun cfg o p => _handle_qm_simple cfg o p "start" [] 120) :
        String × (Config → Oracle → Params → HandlerRun)).2 cfg oracle params =
        _handle_qm_simple cfg oracle params "start" [] 120 from rfl,
      simple_vmid_rejected cfg oracle params "start" [] 120 v e h1 h2]
    exact ⟨rfl, rfl⟩
  · rw [show (("qm-stop", fun cfg o p => _handle_qm_simple cfg o p "stop" [] 120) :
        String × (Config → Oracle → Params → HandlerRun)).2 cfg oracle params =
        _handle_qm_simple cfg oracle params "stop" [] 120 from rfl,
      simple_vmid_rejected cfg oracle params "stop" [] 120 v e h1 h2]
    exact ⟨rfl, rfl⟩
  · rw [show (("qm-shutdown", fun cfg o p => _handle_qm_simple cfg o p "shutdown" [] 300) :
        String × (Config → Oracle → Params → HandlerRun)).2 cfg oracle params =
        _handle_qm_simple cfg oracle params "shutdown" [] 300 from rfl,
      simple_vmid_rejected cfg oracle params "shutdown" [] 300 v e h1 h2]
    exact ⟨rfl, rfl⟩
  · rw [show (("qm-destroy", fun cfg o p => _handle_qm_simple cfg o p "destroy" ["--purge"] 120) :
        String × (Config → Oracle → Params → HandlerRun)).2 cfg oracle params =
        _handle_qm_simple cfg oracle params "destroy" ["--purge"] 120 from rfl,
      simple_vmid_rejected cfg oracle params "destroy" ["--purge"] 120 v e h1 h2]
    exact ⟨rfl, rfl⟩
  · rw [show (("qm-create", handle_qm_create) :
        String × (Config → Oracle → Params → HandlerRun)).2 cfg oracle params =
        handle_qm_create cfg oracle params from rfl,
      create_vmid_rejected cfg oracle params v e h1 h2]
    exact ⟨rfl, rfl⟩
  · rw [show (("qm-importdisk", handle_qm_importdisk) :
        String × (Config → Oracle → Params → HandlerRun)).2 cfg oracle params =
        handle_qm_importdisk cfg oracle params from rfl,
      importdisk_vmid_rejected cfg oracle params v e h1 h2]
    exact ⟨rfl, rfl⟩
  · rw [show (("qm-set", handle_qm_set) :
        String × (Config → Oracle → Params → HandlerRun)).2 cfg oracle params =
        handle_qm_set cfg oracle params from rfl,
      set_vmid_rejected cfg oracle params v e h1 h2]
    exact ⟨rfl, rfl⟩
  · rw [show (("qm-template", fun cfg o p => _handle_qm_simple cfg o p "template" [] 120) :
        String × (Config → Oracle → Params → HandlerRun)).2 cfg oracle params =
        _handle_qm_simple cfg oracle params "template" [] 120 from rfl,
      simple_vmid_rejected cfg oracle params "template" [] 120 v e h1 h2]
    exact ⟨rfl, rfl⟩
  · rw [show (("qm-update-gecos", handle_qm_update_gecos) :
        String × (Config → Oracle → Params → HandlerRun)).2 cfg oracle params =
        handle_qm_update_gecos cfg oracle params from rfl,
      gecos_vmid_rejected cfg oracle params v e h1 h2]
    exact ⟨rfl, rfl⟩

/-- Witness for C2: `qm-start` with the out-of-range `vmid = 7` against the
100–999 range spawns nothing. -/
theorem vmid_validation_gates_all_actions_witness :
    (_handle_qm_simple testCfg testOracle [("vmid", Value.vInt 7)] "start" [] 120).spawned = [] ∧
    (_handle_qm_simple testCfg testOracle [("vmid", Value.vInt 7)] "start" [] 120).result =
      Except.error (PyError.validationError "vmid out of range: 7") :=
  vmid_validation_gates_all_actions testCfg testOracle [("vmid", Value.vInt 7)]
    ("qm-start", fun cfg o p => _handle_qm_simple cfg o p "start" [] 120)
    (by unfold ACTIONS; simp) (Value.vInt 7)
    (PyError.validationError "vmid out of range: 7") rfl rfl

/-- C7: a well-formed `qm-set` request whose config holds the allowlisted
keys `memory = "2048"` and `cores = "2"` in that order builds exactly the
argv `['qm', 'set', str(vmid), '--memory', '2048', '--cores', '2']`: the
pairs are appended in caller order, each key (prefixed `--`) and each value
its own argv entry, never joined into one token. -/
theorem qm_set_argv_order (cfg : Config) (oracle : Oracle) (params : Params)
    (v : Value) (n : Int)
    (h1 : dictLookup params "vmid" = some v)
    (h2 : validate_vmid cfg v = Except.ok n)
    (h3 : pyGet params "config" (Value.vDict []) =
      Value.vDict [("memory", Value.vStr "2048"), ("cores", Value.vStr "2")]) :
    (handle_qm_set cfg oracle params).spawned =
      [(["qm", "set", toString n, "--memory", "2048", "--cores", "2"], 120)] := by
  have hloop : qmSetLoop [("memory", Value.vStr "2048"), ("cores", Value.vStr "2")]
      ["qm", "set", toString n] =
      Except.ok ["qm", "set", toString n, "--memory", "2048", "--cores", "2"] := rfl
  simp only [handle_qm_set, pyGetItem, h1, h2, h3, hloop]
  split <;> rfl

/-- Witness for C7 at `vmid = 150`. -/
theorem qm_set_argv_order_witness :
    (handle_qm_set testCfg testOracle
      [("vmid", Value.vInt 150),
       ("config", Value.vDict [("memory", Value.vStr "2048"), ("cores", Value.vStr "2")])]).spawned =
      [(["qm", "set", "150", "--memory", "2048", "--cores", "2"], 120)] :=
  qm_set_argv_order testCfg testOracle
    [("vmid", Value.vInt 150),
     ("config", Value.vDict [("memory", Value.vStr "2048"), ("cores", Value.vStr "2")])]
    (Value.vInt 150) 150 rfl rfl rfl

/-- C3: with a valid VMID, `qm-importdisk` returns `ok: false` without
spawning any process whenever `image_path` is not a non-empty string, or is
a string that does not begin with `/var/lib/blockhost/` or `/tmp/`, or does
not name an existing regular file. -/
theorem importdisk_path_validation_gates_run (cfg : Config) (oracle : Oracle) (params : Params)
    (v : Value) (n : Int)
    (h1 : dictLookup params "vmid" = some v)
    (h2 : validate_vmid cfg v = Except.ok n)
    (hbad : ∀ s : String, pyGet params "image_path" (Value.vStr "") = Value.vStr s →
      s = "" ∨
      (pyStartsWith s "/var/lib/blockhost/" = false ∧ pyStartsWith s "/tmp/" = false) ∨
      cfg.isfile s = false) :
    (handle_qm_importdisk cfg oracle params).spawned = [] ∧
    ∃ msg, (handle_qm_importdisk cfg oracle params).result =
      Except.ok (QmResult.err msg) := by
  simp only [handle_qm_importdisk, pyGetItem, h1, h2]
  rcases hip : pyGet params "image_path" (Value.vStr "") with s | nn | xs | kvs | _ <;>
    dsimp only
  case vStr =>
    by_cases hs : s = ""
    · rw [if_pos hs]
      exact ⟨rfl, "image_path is required", rfl⟩
    · rw [if_neg hs]
      rcases hbad s hip with hempty | ⟨hp1, hp2⟩ | hfile
      · exact absurd hempty hs
      · rw [if_pos (by simp [hp1, hp2])]
        exact ⟨rfl, "image_path must be under /var/lib/blockhost/ or /tmp/", rfl⟩
      · by_cases hp : (pyStartsWith s "/var/lib/blockhost/" || pyStartsWith s "/tmp/") = true
        · rw [if_neg (by simp [hp]), if_pos (by simp [hfile])]
          exact ⟨rfl, "Image not found: " ++ s, rfl⟩
        · have hp' : (pyStartsWith s "/var/lib/blockhost/" || pyStartsWith s "/tmp/") = false := by
            revert hp
            cases pyStartsWith s "/var/lib/blockhost/" || pyStartsWith s "/tmp/" <;> simp
          rw [if_pos (by simp [hp'])]
          exact ⟨rfl, "image_path must be under /var/lib/blockhost/ or /tmp/", rfl⟩
  case vInt => exact ⟨rfl, "image_path is required", rfl⟩
  case vList => exact ⟨rfl, "image_path is required", rfl⟩
  case vDict => exact ⟨rfl, "image_path is required", rfl⟩
  case vNone => exact ⟨rfl, "image_path is required", rfl⟩

/-- Witness for C3: a path outside the allowed roots is rejected. -/
theorem importdisk_path_validation_gates_run_witness :
    (handle_qm_importdisk testCfg testOracle
      [("vmid", Value.vInt 150), ("image_path", Value.vStr "/etc/passwd"),
       ("storage", Value.vStr "local")]).spawned = [] ∧
    ∃ msg, (handle_qm_importdisk testCfg testOracle
      [("vmid", Value.vInt 150), ("image_path", Value.vStr "/etc/passwd"),
       ("storage", Value.vStr "local")]).result = Except.ok (QmResult.err msg) :=
  importdisk_path_validation_gates_run testCfg testOracle
    [("vmid", Value.vInt 150), ("image_path", Value.vStr "/etc/passwd"),
     ("storage", Value.vStr "local")]
    (Value.vInt 150) 150 rfl rfl
    (by intro s hs
        refine Or.inr (Or.inl ?h)
        have : s = "/etc/passwd" := by
          have := hs
          simp [pyGet, dictLookup] at this
          exact this.symm
        subst this
        exact ⟨rfl, rfl⟩)

/-- Scanning well-formed `[flag, value]` pairs whose flags are strings (the
shape of the transport contract, where the membership test cannot raise),
the create-args loop stops at the first disallowed flag with an error naming
it, for any accumulated command prefix. -/
theorem qmCreateLoop_first_disallowed (items : List Value) :
    ∀ cmd0 : List String,
    (∀ it ∈ items, ∃ (f : String) (x : Value), it = Value.vList [Value.vStr f, x]) →
    (∃ (f : String) (x : Value), Value.vList [Value.vStr f, x] ∈ items ∧
      QM_CREATE_ALLOWED_ARGS.contains f = false) →
    ∃ f : String, QM_CREATE_ALLOWED_ARGS.contains f = false ∧
      (∃ x, Value.vList [Value.vStr f, x] ∈ items) ∧
      qmCreateLoop items cmd0 = CreateScan.reject ("Disallowed qm create arg: " ++ f) := by
  induction items with
  | nil =>
    intro cmd0 _ hbad
    rcases hbad with ⟨f, x, hmem, _⟩
    cases hmem
  | cons it rest ih =>
    intro cmd0 hpairs hbad
    rcases hpairs it (List.mem_cons_self it rest) with ⟨f, x, rfl⟩
    by_cases hall : QM_CREATE_ALLOWED_ARGS.contains f = true
    · have hbad' : ∃ (g : String) (y : Value), Value.vList [Value.vStr g, y] ∈ rest ∧
          QM_CREATE_ALLOWED_ARGS.contains g = false := by
        rcases hbad with ⟨g, y, hmem, hg⟩
        rcases List.mem_cons.mp hmem with heq | hmem'
        · injection heq with h
          injection h with h1 h2
          injection h1 with h1s
          subst h1s
          rw [hg] at hall
          cases hall
        · exact ⟨g, y, hmem', hg⟩
      rcases ih (cmd0 ++ [pyStr (Value.vStr f), pyStr x])
          (fun it hm => hpairs it (List.mem_cons_of_mem _ hm)) hbad' with ⟨g, hg, ⟨y, hy⟩, heq⟩
      refine ⟨g, hg, ⟨y, List.mem_cons_of_mem _ hy⟩, ?_⟩
      have estep : qmCreateLoop (Value.vList [Value.vStr f, x] :: rest) cmd0 =
          qmCreateLoop rest (cmd0 ++ [pyStr (Value.vStr f), pyStr x]) := by
        simp only [qmCreateLoop, createFlagAllowed]
        rw [hall]
      rw [estep]
      exact heq
    · have hf : QM_CREATE_ALLOWED_ARGS.contains f = false := by
        revert hall
        cases QM_CREATE_ALLOWED_ARGS.contains f <;> simp
      refine ⟨f, hf, ⟨x, List.mem_cons_self _ _⟩, ?_⟩
      simp only [qmCreateLoop, createFlagAllowed]
      rw [hf]
      rfl

/-- The set-config loop stops at the first disallowed key with an error
naming it, for any accumulated command prefix. -/
theorem qmSetLoop_first_disallowed (kvs : List (String × Value)) :
    ∀ cmd0 : List String,
    (∃ kv ∈ kvs, QM_SET_ALLOWED_KEYS.contains kv.1 = false) →
    ∃ k, QM_SET_ALLOWED_KEYS.contains k = false ∧ (∃ x, (k, x) ∈ kvs) ∧
      qmSetLoop kvs cmd0 = Except.error ("Disallowed qm set key: " ++ k) := by
  induction kvs with
  | nil =>
    intro cmd0 hbad
    rcases hbad with ⟨kv, hmem, _⟩
    cases hmem
  | cons kv rest ih =>
    intro cmd0 hbad
    obtain ⟨k, v⟩ := kv
    by_cases hall : QM_SET_ALLOWED_KEYS.contains k = true
    · have hbad' : ∃ q ∈ rest, QM_SET_ALLOWED_KEYS.contains q.1 = false := by
        rcases hbad with ⟨⟨k', v'⟩, hmem, hk'⟩
        rcases List.mem_cons.mp hmem with heq | hmem'
        · have : k' = k := congrArg Prod.fst heq
          rw [this] at hk'
          rw [hk'] at hall
          cases hall
        · exact ⟨(k', v'), hmem', hk'⟩
      rcases ih (cmd0 ++ ["--" ++ k, pyStr v]) hbad' with ⟨g, hg, ⟨y, hy⟩, heq⟩
      refine ⟨g, hg, ⟨y, List.mem_cons_of_mem _ hy⟩, ?_⟩
      have estep : qmSetLoop ((k, v) :: rest) cmd0 =
          qmSetLoop rest (cmd0 ++ ["--" ++ k, pyStr v]) := by
        simp only [qmSetLoop]
        rw [hall]
        simp
      rw [estep]
      exact heq
    · have hf : QM_SET_ALLOWED_KEYS.contains k = false := by
        revert hall
        cases QM_SET_ALLOWED_KEYS.contains k <;> simp
      refine ⟨k, hf, ⟨v, List.mem_cons_self _ _⟩, ?_⟩
      simp only [qmSetLoop]
      rw [hf]
      simp

/-- C1: for `qm-create` (string flags of well-formed `[flag, value]` pairs,
the shape of the transport contract — a non-string unhashable flag instead
makes the membership test raise `TypeError`, see `createFlagAllowed`) and
for `qm-set` (keys of the config dict), any flag or key outside the
action's allowlist makes the handler return `ok: false` with an error
naming the (first) offending flag or key, and no process is spawned. -/
theorem create_set_disallowed_rejected (cfg : Config) (oracle : Oracle) :
    (∀ params v n items, dictLookup params "vmid" = some v →
      validate_vmid cfg v = Except.ok n →
      pyGet params "args" (Value.vList []) = Value.vList items →
      (∀ it ∈ items, ∃ (f : String) (x : Value), it = Value.vList [Value.vStr f, x]) →
      (∃ (f : String) (x : Value), Value.vList [Value.vStr f, x] ∈ items ∧
        QM_CREATE_ALLOWED_ARGS.contains f = false) →
      ∃ f : String, QM_CREATE_ALLOWED_ARGS.contains f = false ∧
        (∃ x, Value.vList [Value.vStr f, x] ∈ items) ∧
        handle_qm_create cfg oracle params =
          ⟨Except.ok (QmResult.err ("Disallowed qm create arg: " ++ f)), []⟩)
    ∧ (∀ params v n kvs, dictLookup params "vmid" = some v →
      validate_vmid cfg v = Except.ok n →
      pyGet params "config" (Value.vDict []) = Value.vDict kvs →
      (∃ kv ∈ kvs, QM_SET_ALLOWED_KEYS.contains kv.1 = false) →
      ∃ k, QM_SET_ALLOWED_KEYS.contains k = false ∧ (∃ x, (k, x) ∈ kvs) ∧
        handle_qm_set cfg oracle params =
          ⟨Except.ok (QmResult.err ("Disallowed qm set key: " ++ k)), []⟩) := by
  constructor
  · intro params v n items h1 h2 h3 hpairs hbad
    rcases qmCreateLoop_first_disallowed items ["qm", "create", toString n] hpairs hbad with
      ⟨f, hf, hx, heq⟩
    refine ⟨f, hf, hx, ?_⟩
    simp only [handle_qm_create, pyGetItem, h1, h2, h3, heq]
  · intro params v n kvs h1 h2 h3 hbad
    rcases qmSetLoop_first_disallowed kvs ["qm", "set", toString n] hbad with ⟨k, hk, hx, heq⟩
    refine ⟨k, hk, hx, ?_⟩
    cases kvs with
    | nil =>
      rcases hbad with ⟨kv, hmem, _⟩
      cases hmem
    | cons kv kvs' => simp only [handle_qm_set, pyGetItem, h1, h2, h3, heq]

/-- Witness for C1: `--evil` is not a create flag and `evil` is not a set
key; both are rejected by name with nothing spawned, at `vmid = 150`. -/
theorem create_set_disallowed_rejected_witness :
    (∃ f : String, QM_CREATE_ALLOWED_ARGS.contains f = false ∧
      (∃ x, Value.vList [Value.vStr f, x] ∈ [Value.vList [Value.vStr "--evil", Value.vStr "x"]]) ∧
      handle_qm_create testCfg testOracle
        [("vmid", Value.vInt 150),
         ("args", Value.vList [Value.vList [Value.vStr "--evil", Value.vStr "x"]])] =
        ⟨Except.ok (QmResult.err ("Disallowed qm create arg: " ++ f)), []⟩)
    ∧ (∃ k, QM_SET_ALLOWED_KEYS.contains k = false ∧
      (∃ x, (k, x) ∈ [("evil", Value.vStr "x")]) ∧
      handle_qm_set testCfg testOracle
        [("vmid", Value.vInt 150), ("config", Value.vDict [("evil", Value.vStr "x")])] =
        ⟨Except.ok (QmResult.err ("Disallowed qm set key: " ++ k)), []⟩) :=
  ⟨(create_set_disallowed_rejected testCfg testOracle).1
      [("vmid", Value.vInt 150),
       ("args", Value.vList [Value.vList [Value.vStr "--evil", Value.vStr "x"]])]
      (Value.vInt 150) 150 [Value.vList [Value.vStr "--evil", Value.vStr "x"]] rfl rfl rfl
      (by
        intro it hm
        rcases List.mem_cons.mp hm with heq | hnil
        · exact ⟨"--evil", Value.vStr "x", heq⟩
        · cases hnil)
      ⟨"--evil", Value.vStr "x", List.mem_cons_self _ _, rfl⟩,
   (create_set_disallowed_rejected testCfg testOracle).2
      [("vmid", Value.vInt 150), ("config", Value.vDict [("evil", Value.vStr "x")])]
      (Value.vInt 150) 150 [("evil", Value.vStr "x")] rfl rfl rfl
      ⟨("evil", Value.vStr "x"), List.mem_cons_self _ _, rfl⟩⟩

/-- With every flag allowlisted, the create-args loop accepts all pairs and
appends flag and `str(value)` as two separate argv entries in caller
order. -/
theorem qmCreateLoop_all_allowed (ps : List (String × Value)) :
    ∀ cmd0 : List String,
    (∀ p ∈ ps, QM_CREATE_ALLOWED_ARGS.contains p.1 = true) →
    qmCreateLoop (ps.map fun p => Value.vList [Value.vStr p.1, p.2]) cmd0 =
      CreateScan.done (cmd0 ++ ps.flatMap fun p => [p.1, pyStr p.2]) := by
  induction ps with
  | nil =>
    intro cmd0 _
    simp [qmCreateLoop]
  | cons p rest ih =>
    intro cmd0 hall
    obtain ⟨f, x⟩ := p
    have hf : QM_CREATE_ALLOWED_ARGS.contains f = true :=
      hall (f, x) (List.mem_cons_self _ _)
    simp only [List.map_cons, qmCreateLoop, createFlagAllowed]
    rw [hf]
    have estep := ih (cmd0 ++ [pyStr (Value.vStr f), pyStr x])
      (fun q hq => hall q (List.mem_cons_of_mem _ hq))
    rw [show (match Except.ok true with
        | Except.error e => CreateScan.raised e
        | Except.ok true => qmCreateLoop (rest.map fun p => Value.vList [Value.vStr p.1, p.2])
            (cmd0 ++ [pyStr (Value.vStr f), pyStr x])
        | Except.ok false => CreateScan.reject ("Disallowed qm create arg: " ++
            pyStr (Value.vStr f)) : CreateScan) =
      qmCreateLoop (rest.map fun p => Value.vList [Value.vStr p.1, p.2])
        (cmd0 ++ [pyStr (Value.vStr f), pyStr x]) from rfl, estep]
    simp [pyStr, List.append_assoc]

/-- With every key allowlisted, the set-config loop accepts all pairs and
appends `--key` and `str(value)` as two separate argv entries in caller
order. -/
theorem qmSetLoop_all_allowed (kvs : List (String × Value)) :
    ∀ cmd0 : List String,
    (∀ kv ∈ kvs, QM_SET_ALLOWED_KEYS.contains kv.1 = true) →
    qmSetLoop kvs cmd0 =
      Except.ok (cmd0 ++ kvs.flatMap fun kv => ["--" ++ kv.1, pyStr kv.2]) := by
  induction kvs with
  | nil =>
    intro cmd0 _
    simp [qmSetLoop]
  | cons kv rest ih =>
    intro cmd0 hall
    obtain ⟨k, v⟩ := kv
    have hk : QM_SET_ALLOWED_KEYS.contains k = true := hall (k, v) (List.mem_cons_self _ _)
    simp only [qmSetLoop]
    rw [hk]
    simp only [if_true]
    rw [ih (cmd0 ++ ["--" ++ k, pyStr v]) (fun q hq => hall q (List.mem_cons_of_mem _ hq))]
    simp [List.append_assoc]

/-- C10: only flags and keys are checked against the allowlists, never
values.  For `qm-create` args of well-formed pairs with allowlisted flags
and for `qm-set` configs with allowlisted keys, every value is accepted
unconditionally, coerced by `str()`, and appears verbatim as its own single
argv element immediately after its flag — whatever characters it contains. -/
theorem values_passed_verbatim (cfg : Config) (oracle : Oracle) :
    (∀ params v n (ps : List (String × Value)), dictLookup params "vmid" = some v →
      validate_vmid cfg v = Except.ok n →
      pyGet params "args" (Value.vList []) =
        Value.vList (ps.map fun p => Value.vList [Value.vStr p.1, p.2]) →
      (∀ p ∈ ps, QM_CREATE_ALLOWED_ARGS.contains p.1 = true) →
      (handle_qm_create cfg oracle params).spawned =
        [(["qm", "create", toString n] ++ ps.flatMap fun p => [p.1, pyStr p.2], 120)])
    ∧ (∀ params v n (kv : String × Value) (kvs : List (String × Value)),
      dictLookup params "vmid" = some v →
      validate_vmid cfg v = Except.ok n →
      pyGet params "config" (Value.vDict []) = Value.vDict (kv :: kvs) →
      (∀ q ∈ kv :: kvs, QM_SET_ALLOWED_KEYS.contains q.1 = true) →
      (handle_qm_set cfg oracle params).spawned =
        [(["qm", "set", toString n] ++
          (kv :: kvs).flatMap fun q => ["--" ++ q.1, pyStr q.2], 120)]) := by
  constructor
  · intro params v n ps h1 h2 h3 hall
    simp only [handle_qm_create, pyGetItem, h1, h2, h3]
    rw [qmCreateLoop_all_allowed ps ["qm", "create", toString n] hall]
    dsimp only
    split <;> rfl
  · intro params v n kv kvs h1 h2 h3 hall
    simp only [handle_qm_set, pyGetItem, h1, h2, h3]
    rw [qmSetLoop_all_allowed (kv :: kvs) ["qm", "set", toString n] hall]
    dsimp only
    split <;> rfl

/-- Witness for C10: a value full of whitespace and shell metacharacters and
a value with a leading dash both travel verbatim as single argv entries. -/
theorem values_passed_verbatim_witness :
    (handle_qm_create testCfg testOracle
      [("vmid", Value.vInt 150),
       ("args", Value.vList [Value.vList [Value.vStr "--name", Value.vStr "a b; rm -rf /"]])]).spawned =
      [(["qm", "create", "150", "--name", "a b; rm -rf /"], 120)] ∧
    (handle_qm_set testCfg testOracle
      [("vmid", Value.vInt 150),
       ("config", Value.vDict [("name", Value.vStr "-x $(evil)")])]).spawned =
      [(["qm", "set", "150", "--name", "-x $(evil)"], 120)] :=
  ⟨(values_passed_verbatim testCfg testOracle).1
      [("vmid", Value.vInt 150),
       ("args", Value.vList [Value.vList [Value.vStr "--name", Value.vStr "a b; rm -rf /"]])]
      (Value.vInt 150) 150 [("--name", Value.vStr "a b; rm -rf /")] rfl rfl rfl
      (by
        intro p hp
        rcases List.mem_cons.mp hp with heq | hnil
        · rw [heq]
          rfl
        · cases hnil),
   (values_passed_verbatim testCfg testOracle).2
      [("vmid", Value.vInt 150),
       ("config", Value.vDict [("name", Value.vStr "-x $(evil)")])]
      (Value.vInt 150) 150 ("name", Value.vStr "-x $(evil)") [] rfl rfl rfl
      (by
        intro q hq
        rcases List.mem_cons.mp hq with heq | hnil
        · rw [heq]
          rfl
        · cases hnil)⟩

/-- Exit-status mapping applied by every handler to what `run` returns:
exit code 0 yields `{ok: true, output: stdout}`; a non-zero exit code yields
`{ok: false, error: stderr}` when stderr is non-empty and
`{ok: false, error: stdout}` when it is empty (`err or out`). -/
def runMap (oracle : Oracle) (cmd : List String) (t : Nat) : QmResult :=
  if (oracle cmd t).1 ≠ 0 then QmResult.err (pyOr (oracle cmd t).2.2 (oracle cmd t).2.1)
  else QmResult.ok (oracle cmd t).2.1

/-- If `_handle_qm_simple` spawned a command, its result is the exit-status
mapping of that command's execution. -/
theorem simple_spawn_inv (cfg : Config) (oracle : Oracle) (params : Params)
    (sub : String) (extra : List String) (t : Nat) (cmd : List String) (tt : Nat)
    (hsp : (_handle_qm_simple cfg oracle params sub extra t).spawned = [(cmd, tt)]) :
    (_handle_qm_simple cfg oracle params sub extra t).result =
      Except.ok (runMap oracle cmd tt) := by
  revert hsp
  unfold _handle_qm_simple
  dsimp only
  repeat' split
  all_goals intro h
  all_goals simp_all [runMap]

/-- If `handle_qm_create` spawned a command, its result is the exit-status
mapping of that command's execution. -/
theorem create_spawn_inv (cfg : Config) (oracle : Oracle) (params : Params)
    (cmd : List String) (tt : Nat)
    (hsp : (handle_qm_create cfg oracle params).spawned = [(cmd, tt)]) :
    (handle_qm_create cfg oracle params).result = Except.ok (runMap oracle cmd tt) := by
  revert hsp
  unfold handle_qm_create
  dsimp only
  repeat' split
  all_goals intro h
  all_goals simp_all [runMap]

/-- If `handle_qm_importdisk` spawned a command, its result is the
exit-status mapping of that command's execution. -/
theorem importdisk_spawn_inv (cfg : Config) (oracle : Oracle) (params : Params)
    (cmd : List String) (tt : Nat)
    (hsp : (handle_qm_importdisk cfg oracle params).spawned = [(cmd, tt)]) :
    (handle_qm_importdisk cfg oracle params).result = Except.ok (runMap oracle cmd tt) := by
  revert hsp
  unfold handle_qm_importdisk
  dsimp only
  repeat' split
  all_goals intro h
  all_goals simp_all [runMap]

/-- If `handle_qm_set` spawned a command, its result is the exit-status
mapping of that command's execution. -/
theorem set_spawn_inv (cfg : Config) (oracle : Oracle) (params : Params)
    (cmd : List String) (tt : Nat)
    (hsp : (handle_qm_set cfg oracle params).spawned = [(cmd, tt)]) :
    (handle_qm_set cfg oracle params).result = Except.ok (runMap oracle cmd tt) := by
  revert hsp
  unfold handle_qm_set
  dsimp only
  repeat' split
  all_goals intro h
  all_goals simp_all [runMap]

/-- If `handle_qm_update_gecos` spawned a command, its result is the
exit-status mapping of that command's execution. -/
theorem gecos_spawn_inv (cfg : Config) (oracle : Oracle) (params : Params)
    (cmd : List String) (tt : Nat)
    (hsp : (handle_qm_update_gecos cfg oracle params).spawned = [(cmd, tt)]) :
    (handle_qm_update_gecos cfg oracle params).result = Except.ok (runMap oracle cmd tt) := by
  revert hsp
  unfold handle_qm_update_gecos
  dsimp only
  repeat' split
  all_goals intro h
  all_goals simp_all [runMap]

/-- C6: for every action in the registry and every execution result
`(rc, stdout, stderr)` the executor returns for the spawned command, the
handler returns `{ok: true, output: stdout}` when `rc = 0`, and
`{ok: false, error: stderr}` when `rc ≠ 0` with non-empty stderr, falling
back to stdout for the error when stderr is empty. -/
theorem exit_code_mapping_all_actions (cfg : Config) (oracle : Oracle) (params : Params)
    (entry : String × (Config → Oracle → Params → HandlerRun))
    (hmem : entry ∈ ACTIONS) (cmd : List String) (t : Nat)
    (hsp : (entry.2 cfg oracle params).spawned = [(cmd, t)]) :
    (entry.2 cfg oracle params).result = Except.ok (runMap oracle cmd t) := by
  fin_cases hmem
  · exact simple_spawn_inv cfg oracle params "start" [] 120 cmd t hsp
  · exact simple_spawn_inv cfg oracle params "stop" [] 120 cmd t hsp
  · exact simple_spawn_inv cfg oracle params "shutdown" [] 300 cmd t hsp
  · exact simple_spawn_inv cfg oracle params "destroy" ["--purge"] 120 cmd t hsp
  · exact create_spawn_inv cfg oracle params cmd t hsp
  · exact importdisk_spawn_inv cfg oracle params cmd t hsp
  · exact set_spawn_inv cfg oracle params cmd t hsp
  · exact simple_spawn_inv cfg oracle params "template" [] 120 cmd t hsp
  · exact gecos_spawn_inv cfg oracle params cmd t hsp

/-- Executor stub that fails with exit code 1, stdout `"SOUT"` and stderr
`"SERR"`. -/
def failOracle : Oracle := fun _ _ => (1, "SOUT", "SERR")

/-- Witness for C6: `qm-start` under a succeeding executor reports
`ok: true` with its stdout, and under a failing executor reports `ok: false`
with its stderr. -/
theorem exit_code_mapping_all_actions_witness :
    (_handle_qm_simple testCfg testOracle params150 "start" [] 120).result =
      Except.ok (QmResult.ok "OUT") ∧
    (_handle_qm_simple testCfg failOracle params150 "start" [] 120).result =
      Except.ok (QmResult.err "SERR") :=
  ⟨exit_code_mapping_all_actions testCfg testOracle params150
      ("qm-start", fun cfg o p => _handle_qm_simple cfg o p "start" [] 120)
      (by unfold ACTIONS; simp) ["qm", "start", "150"] 120 rfl,
   exit_code_mapping_all_actions testCfg failOracle params150
      ("qm-start", fun cfg o p => _handle_qm_simple cfg o p "start" [] 120)
      (by unfold ACTIONS; simp) ["qm", "start", "150"] 120 rfl⟩

/-- Characterization of the anchored `re.match` truthiness: a string matches
iff its characters match the body outright, or they are a body match
followed by exactly one trailing newline (Python `$` semantics). -/
theorem reMatchAnchored_iff (core : List Char → Bool) (s : String) :
    reMatchAnchored core s = true ↔
      core s.data = true ∨ ∃ t, s.data = t ++ ['\n'] ∧ core t = true := by
  unfold reMatchAnchored
  rcases List.eq_nil_or_concat s.data with hnil | ⟨t, c, hcat⟩
  · rw [hnil]
    simp
  · rw [List.concat_eq_append] at hcat
    rw [hcat]
    simp only [List.getLast?_concat, List.dropLast_concat, Bool.or_eq_true, Bool.and_eq_true,
      decide_eq_true_eq]
    constructor
    · rintro (hc | ⟨hc, ht⟩)
      · exact Or.inl hc
      · exact Or.inr ⟨t, by rw [hc], ht⟩
    · rintro (hc | ⟨t', heq, ht'⟩)
      · exact Or.inl hc
      · obtain ⟨h1, h2⟩ := List.append_inj' heq rfl
        injection h2 with hc _
        subst h1
        exact Or.inr ⟨hc, ht'⟩

/-- C4 counterexample: `"wallet=a\n"` lies outside the claimed grammar (its
body `gecosCore` rejects it), yet `GECOS_RE.match` is truthy on it — Python
`$` also matches just before a trailing newline — so `qm-update-gecos`
accepts it and spawns `usermod` with it. -/
theorem gecos_trailing_newline_counterexample :
    gecosCore ("wallet=a\n".data) = false ∧
    GECOS_RE_match "wallet=a\n" = true ∧
    (dispatch testCfg testOracle "qm-update-gecos"
      [("vmid", Value.vInt 150), ("username", Value.vStr "bob"),
       ("gecos", Value.vStr "wallet=a\n")]).2 =
      [(["qm", "guest", "exec", "150", "--", "usermod", "-c", "wallet=a\n", "bob"], 30)] :=
  ⟨rfl, rfl, rfl⟩

/-- C4 (amended): the gecos validator accepts exactly the strings matching
the anchored grammar `wallet=<1-128 alphanumerics>(,nft=<1-10 digits>)?`
optionally followed by one trailing newline (Python `$` semantics):
`"wallet=abc123,nft=42"` is accepted, `"wallet=abc123;rm -rf"` and
`"wallet="` are rejected with `ok: false` and no process spawned, and every
string the pattern rejects is turned away before `run`. -/
theorem gecos_validator_amended (cfg : Config) (oracle : Oracle) (params : Params)
    (v : Value) (n : Int) (u s : String)
    (h1 : dictLookup params "vmid" = some v)
    (h2 : validate_vmid cfg v = Except.ok n)
    (hu : pyGet params "username" (Value.vStr "") = Value.vStr u)
    (husr : USERNAME_RE_match u = true)
    (hg : pyGet params "gecos" (Value.vStr "") = Value.vStr s) :
    (GECOS_RE_match "wallet=abc123,nft=42" = true ∧
     GECOS_RE_match "wallet=abc123;rm -rf" = false ∧
     GECOS_RE_match "wallet=" = false) ∧
    (∀ g : String, GECOS_RE_match g = true ↔
      gecosCore g.data = true ∨ ∃ t, g.data = t ++ ['\n'] ∧ gecosCore t = true) ∧
    (GECOS_RE_match s = false →
      handle_qm_update_gecos cfg oracle params =
        ⟨Except.ok (QmResult.err ("Invalid gecos: " ++ s)), []⟩) ∧
    (GECOS_RE_match s = true →
      (handle_qm_update_gecos cfg oracle params).spawned =
        [(["qm", "guest", "exec", toString n, "--", "usermod", "-c", s, u], 30)]) := by
  refine ⟨⟨rfl, rfl, rfl⟩, fun g => reMatchAnchored_iff gecosCore g, ?rej, ?acc⟩
  case rej =>
    intro hG
    simp [handle_qm_update_gecos, pyGetItem, h1, h2, hu, husr, hg, hG]
  case acc =>
    intro hG
    simp [handle_qm_update_gecos, pyGetItem, h1, h2, hu, husr, hg, hG]
    try (split <;> rfl)

/-- Witness for the amended C4: `"wallet="` is rejected by name with nothing
spawned, at `vmid = 150` and username `bob`. -/
theorem gecos_validator_amended_witness :
    handle_qm_update_gecos testCfg testOracle
      [("vmid", Value.vInt 150), ("username", Value.vStr "bob"),
       ("gecos", Value.vStr "wallet=")] =
      ⟨Except.ok (QmResult.err "Invalid gecos: wallet="), []⟩ :=
  (gecos_validator_amended testCfg testOracle
    [("vmid", Value.vInt 150), ("username", Value.vStr "bob"),
     ("gecos", Value.vStr "wallet=")]
    (Value.vInt 150) 150 "bob" "wallet=" rfl rfl rfl rfl rfl).2.2.1 rfl

end Qm
